import Mathlib

/-!
# FaceVibe — verification of the facial-landmark analysis and session/game engine

Shallow embedding of the core logic of the FaceVibe repository:

* `src/utils/FacialAnalysis.tsx` — the stress estimator `calculateStressLevel`
  and the ten `ExerciseValidators` (the enhanced first revision of the file is
  embedded; this is the revision the specification's line references point at).
* `src/components/ExerciseTracker.tsx` — the success-streak / completion logic.
* `src/components/StressGame.tsx` — the game trigger with its cooldown, the
  per-game scratch store in `sessionStorage`, game resolution, and the
  Face Freeze game validator.
* `src/components/SocialStreaks.tsx` — `updateMyStreak`.
* `src/components/ResilienceTracker.tsx` — the resilience score formula.

JavaScript numbers are modelled as exact rationals (`ℚ`); `Math.abs`,
`Math.min`, `Math.max` become `|·|`, `min`, `max`.  `Math.random()` results
are passed in as explicit parameters.  One division has a denominator that
can vanish on a fully populated frame — `jawWidth / jawHeight` inside the
stress estimator.  There JavaScript computes `0/0 = NaN` (which then
reaches the returned value through every later operation, `Math.min` and
`Math.max` included) or `q/0 = +Infinity` for `q > 0` (which the following
`Math.min(1, Math.max(0, ·))` clamps to 1).  `calculateStressLevel`
therefore returns an `Option ℚ` whose `none` is the NaN outcome and models
the `+Infinity` case by its clamped value; everywhere else denominators are
nonzero constants or guarded, and division is ordinary rational division.
Timestamps (`Date.now()`) are modelled as integers (milliseconds).
-/

/-- One MediaPipe landmark point `{x, y, z}` in normalized coordinates. -/
structure Point where
  x : ℚ
  y : ℚ
  z : ℚ
deriving DecidableEq

/-- A fully populated landmark frame: every index yields a point.
(The 468-point bound is immaterial to the heuristics, which read a fixed
set of indices.) -/
def Frame : Type := Nat → Point

/-- A frame in which individual indexed points may be missing
(`landmarks[i]` being `undefined` in JavaScript). -/
def PFrame : Type := Nat → Option Point

namespace FACIAL_LANDMARKS

-- Landmark index table from src/utils/FacialAnalysis.tsx (enhanced revision).
def LEFT_EYE_TOP : Nat := 159
def LEFT_EYE_BOTTOM : Nat := 145
def LEFT_EYE_OUTER : Nat := 33
def LEFT_EYE_INNER : Nat := 133
def RIGHT_EYE_TOP : Nat := 386
def RIGHT_EYE_BOTTOM : Nat := 374
def RIGHT_EYE_OUTER : Nat := 263
def RIGHT_EYE_INNER : Nat := 362
def LEFT_EYEBROW_OUTER : Nat := 70
def LEFT_EYEBROW : Nat := 107
def LEFT_EYEBROW_INNER : Nat := 105
def RIGHT_EYEBROW_OUTER : Nat := 300
def RIGHT_EYEBROW : Nat := 336
def RIGHT_EYEBROW_INNER : Nat := 334
def MOUTH_LEFT : Nat := 61
def MOUTH_RIGHT : Nat := 291
def UPPER_LIP : Nat := 13
def LOWER_LIP : Nat := 14
def UPPER_LIP_TOP : Nat := 0
def LOWER_LIP_BOTTOM : Nat := 17
def NOSE_TIP : Nat := 4
def NOSE_BRIDGE : Nat := 6
def NOSE_LEFT : Nat := 285
def NOSE_RIGHT : Nat := 55
def CHIN : Nat := 152
def CHIN_LEFT : Nat := 149
def CHIN_RIGHT : Nat := 378
def FOREHEAD_TOP : Nat := 10
def FOREHEAD_MID : Nat := 151
def LEFT_CHEEK : Nat := 234
def RIGHT_CHEEK : Nat := 454
def LEFT_CHEEK_OUTER : Nat := 206
def RIGHT_CHEEK_OUTER : Nat := 426
def JAW_LEFT : Nat := 207
def JAW_RIGHT : Nat := 427
def JAW_CENTER : Nat := 200

end FACIAL_LANDMARKS

open FACIAL_LANDMARKS

/-- Function `calculateStressLevel` from src/utils/FacialAnalysis.tsx (lines 65–175).
`landmarks = none` models a null frame; `rand` is the `Math.random()` draw
made at line 171.  The result is `none` exactly when the source returns
`NaN`: at line 132 `jawClenchFactor = jawWidth / jawHeight - 2.0` divides
by a measured quantity, and on a frame with `jawWidth = jawHeight = 0`
JavaScript computes `0/0 = NaN`, which survives every later operation
(including the final `Math.min`/`Math.max` clamp) and is returned.  When
only `jawHeight = 0`, the quotient is `+Infinity` and the
`Math.min(1, Math.max(0, · * 2))` at line 155 turns it into
`jawFactor = 1`, which is how that case is written below. -/
def calculateStressLevel (landmarks : Option Frame) (rand : ℚ) : Option ℚ :=
  match landmarks with
  | none => some 0.5
  | some lm =>
    let leftBrowInner := lm LEFT_EYEBROW_INNER
    let rightBrowInner := lm RIGHT_EYEBROW_INNER
    let leftBrowOuter := lm LEFT_EYEBROW_OUTER
    let rightBrowOuter := lm RIGHT_EYEBROW_OUTER
    let noseBridge := lm NOSE_BRIDGE
    let browPinchFactor :=
      |(leftBrowInner.y - noseBridge.y) + (rightBrowInner.y - noseBridge.y)| / 2
    let browAsymmetry :=
      |(leftBrowOuter.y - leftBrowInner.y) - (rightBrowOuter.y - rightBrowInner.y)|
    let mouthLeft := lm MOUTH_LEFT
    let mouthRight := lm MOUTH_RIGHT
    let upperLip := lm UPPER_LIP
    let lowerLip := lm LOWER_LIP
    let mouthWidth := |mouthLeft.x - mouthRight.x|
    let mouthOpenness := |upperLip.y - lowerLip.y|
    let lipCompression := min 0.05 mouthOpenness / 0.05
    let leftEyeOpening := |(lm LEFT_EYE_TOP).y - (lm LEFT_EYE_BOTTOM).y|
    let rightEyeOpening := |(lm RIGHT_EYE_TOP).y - (lm RIGHT_EYE_BOTTOM).y|
    let eyeOpenness := (leftEyeOpening + rightEyeOpening) / 2
    let eyeWidenFactor := |eyeOpenness - 0.03| * 10
    let eyeAsymmetry := |leftEyeOpening - rightEyeOpening| * 10
    let foreheadTop := lm FOREHEAD_TOP
    let foreheadMid := lm FOREHEAD_MID
    let foreheadVariation := |foreheadTop.y - foreheadMid.y|
    let jawLeft := lm JAW_LEFT
    let jawRight := lm JAW_RIGHT
    let jawCenter := lm JAW_CENTER
    let jawWidth := |jawLeft.x - jawRight.x|
    let jawHeight := |jawCenter.y - (lm CHIN).y|
    -- jawClenchFactor = jawWidth / jawHeight - 2.0 (line 132): 0/0 = NaN
    -- propagates to the returned value (modelled as none); q/0 = +Infinity
    -- for q > 0 is clamped to jawFactor = 1 by line 155.
    if jawWidth = 0 ∧ jawHeight = 0 then
      none
    else
      let noseLeft := lm NOSE_LEFT
      let noseRight := lm NOSE_RIGHT
      let noseWidth := |noseLeft.x - noseRight.x|
      let noseFlaring := max 0 ((noseWidth - 0.15) * 5)
      let mouthFactor := 1 - min 1 (mouthWidth * 3.5)
      let eyebrowFactor := min 1 ((1 - browPinchFactor) * 5 + browAsymmetry * 3)
      let eyeFactor := min 1 (eyeWidenFactor * 0.7 + eyeAsymmetry * 0.3)
      let foreheadFactor := min 1 (foreheadVariation * 15)
      let jawFactor :=
        if jawHeight = 0 then (1 : ℚ)
        else min 1 (max 0 ((jawWidth / jawHeight - 2.0) * 2))
      let lipFactor := 1 - lipCompression
      let stressLevel :=
        mouthFactor * 0.20 + eyebrowFactor * 0.25 + eyeFactor * 0.15 +
        foreheadFactor * 0.15 + jawFactor * 0.15 + lipFactor * 0.05 +
        noseFlaring * 0.05
      let stressLevel := stressLevel * 0.95 + rand * 0.05
      some (min 1 (max 0 stressLevel))

namespace ExerciseValidators

/-- Validator `jawDropper` (FacialAnalysis.tsx lines 186–200). -/
def jawDropper (lm : Frame) : Bool :=
  let chin := lm CHIN
  let noseTip := lm NOSE_TIP
  let upperLip := lm UPPER_LIP
  let lowerLip := lm LOWER_LIP
  let jawDrop := |chin.y - noseTip.y|
  let mouthOpening := |upperLip.y - lowerLip.y|
  decide (jawDrop > 0.22) && decide (mouthOpening > 0.05)

/-- Validator `browLifter` (lines 205–222). -/
def browLifter (lm : Frame) : Bool :=
  let leftBrowOuter := lm LEFT_EYEBROW_OUTER
  let leftBrowInner := lm LEFT_EYEBROW_INNER
  let rightBrowOuter := lm RIGHT_EYEBROW_OUTER
  let rightBrowInner := lm RIGHT_EYEBROW_INNER
  let noseTip := lm NOSE_TIP
  let leftBrowHeight := (noseTip.y - leftBrowOuter.y + (noseTip.y - leftBrowInner.y)) / 2
  let rightBrowHeight := (noseTip.y - rightBrowOuter.y + (noseTip.y - rightBrowInner.y)) / 2
  let browHeight := (leftBrowHeight + rightBrowHeight) / 2
  let symmetry := decide (|leftBrowHeight - rightBrowHeight| < 0.03)
  decide (browHeight > 0.15) && symmetry

/-- Validator `cheekPuffer` (lines 227–243). -/
def cheekPuffer (lm : Frame) : Bool :=
  let leftCheek := lm LEFT_CHEEK
  let rightCheek := lm RIGHT_CHEEK
  let leftCheekOuter := lm LEFT_CHEEK_OUTER
  let rightCheekOuter := lm RIGHT_CHEEK_OUTER
  let cheekWidth := |leftCheek.x - rightCheek.x|
  let leftProtrusion := leftCheek.z - leftCheekOuter.z
  let rightProtrusion := rightCheek.z - rightCheekOuter.z
  let cheekProtrusion := (leftProtrusion + rightProtrusion) / 2
  decide (cheekWidth > 0.25) && decide (cheekProtrusion < -0.01)

/-- Validator `eyeWinker` (lines 248–268). -/
def eyeWinker (lm : Frame) : Bool :=
  let leftEyeOpening := |(lm LEFT_EYE_TOP).y - (lm LEFT_EYE_BOTTOM).y|
  let rightEyeOpening := |(lm RIGHT_EYE_TOP).y - (lm RIGHT_EYE_BOTTOM).y|
  let asymmetry := |leftEyeOpening - rightEyeOpening|
  let oneEyeClosed := decide (min leftEyeOpening rightEyeOpening < 0.01)
  let oneEyeOpen := decide (max leftEyeOpening rightEyeOpening > 0.02)
  decide (asymmetry > 0.02) && oneEyeClosed && oneEyeOpen

/-- Validator `smileyStretch` (lines 273–289). -/
def smileyStretch (lm : Frame) : Bool :=
  let mouthLeft := lm MOUTH_LEFT
  let mouthRight := lm MOUTH_RIGHT
  let upperLip := lm UPPER_LIP
  let lowerLip := lm LOWER_LIP
  let mouthWidth := |mouthLeft.x - mouthRight.x|
  let mouthCornerHeight := (mouthLeft.y + mouthRight.y) / 2
  let lipCenterHeight := (upperLip.y + lowerLip.y) / 2
  let smileShape := decide (mouthCornerHeight < lipCenterHeight)
  decide (mouthWidth > 0.3) && smileShape

/-- Validator `noseScruncher` (lines 294–308). -/
def noseScruncher (lm : Frame) : Bool :=
  let noseTip := lm NOSE_TIP
  let noseBridge := lm NOSE_BRIDGE
  let leftBrowInner := lm LEFT_EYEBROW_INNER
  let rightBrowInner := lm RIGHT_EYEBROW_INNER
  let noseLength := |noseTip.y - noseBridge.y|
  let browPinch := |leftBrowInner.x - rightBrowInner.x|
  decide (noseLength < 0.025) && decide (browPinch < 0.08)

/-- Validator `lipPucker` (lines 313–332). -/
def lipPucker (lm : Frame) : Bool :=
  let upperLip := lm UPPER_LIP
  let lowerLip := lm LOWER_LIP
  let upperLipTop := lm UPPER_LIP_TOP
  let lowerLipBottom := lm LOWER_LIP_BOTTOM
  let mouthLeft := lm MOUTH_LEFT
  let mouthRight := lm MOUTH_RIGHT
  let mouthWidth := |mouthLeft.x - mouthRight.x|
  let lipHeight := |upperLipTop.y - lowerLipBottom.y|
  let lipProtrusion := (upperLip.z + lowerLip.z) / 2
  decide (mouthWidth < 0.15) && decide (lipProtrusion < -0.01) && decide (lipHeight > 0.04)

/-- Validator `chinJutter` (lines 337–353). -/
def chinJutter (lm : Frame) : Bool :=
  let chin := lm CHIN
  let noseTip := lm NOSE_TIP
  let chinLeft := lm CHIN_LEFT
  let chinRight := lm CHIN_RIGHT
  let chinProtrusion := noseTip.z - chin.z
  let chinWidth := |chinLeft.x - chinRight.x|
  let normalChinWidth : ℚ := 0.2
  let chinNarrowing := decide (chinWidth < normalChinWidth)
  decide (chinProtrusion > 0.015) && chinNarrowing

/-- Validator `foreheadSmoother` (lines 358–372). -/
def foreheadSmoother (lm : Frame) : Bool :=
  let foreheadTop := lm FOREHEAD_TOP
  let foreheadMid := lm FOREHEAD_MID
  let leftBrow := lm LEFT_EYEBROW
  let rightBrow := lm RIGHT_EYEBROW
  let verticalVariation := |foreheadTop.y - foreheadMid.y|
  let browNeutralPosition := decide (|leftBrow.y - rightBrow.y| < 0.01)
  decide (verticalVariation < 0.005) && browNeutralPosition

/-- Validator `tongueTwister` (lines 378–395). -/
def tongueTwister (lm : Frame) : Bool :=
  let upperLip := lm UPPER_LIP
  let lowerLip := lm LOWER_LIP
  let upperLipTop := lm UPPER_LIP_TOP
  let lowerLipBottom := lm LOWER_LIP_BOTTOM
  let mouthOpening := |upperLip.y - lowerLip.y|
  let totalMouthHeight := |upperLipTop.y - lowerLipBottom.y|
  let chinDrop := (lm CHIN).y - lowerLipBottom.y
  decide (mouthOpening > 0.1) && decide (totalMouthHeight > 0.15) && decide (chinDrop > 0.03)

end ExerciseValidators

/-- Build a frame from an association list of (index, point); indices not
listed read as the origin point.  (Test scaffolding for concrete frames.) -/
def mkFrame (entries : List (Nat × Point)) : Frame := fun i =>
  match entries.find? (fun e => e.1 == i) with
  | some e => e.2
  | none => ⟨0, 0, 0⟩

/-! ## Point access on frames with missing points

In JavaScript, `landmarks[i]` on a frame missing index `i` yields
`undefined`, and the subsequent `.x`/`.y`/`.z` access throws a `TypeError`.
This is modelled by `Except`: reading a missing point aborts the
computation with an error. -/

/-- Read point `i`; a missing point is the JavaScript `TypeError` on
property access, modelled as an error result. -/
def getP (lm : PFrame) (i : Nat) : Except Unit Point :=
  match lm i with
  | some p => Except.ok p
  | none => Except.error ()

/-- Function `calculateStressLevel` with its point accesses made explicit
over a frame that may miss points (same code as `calculateStressLevel`;
reads occur in source order, lines 71–137).  The `jawClenchFactor`
division keeps plain rational division here: the theorems about this
version concern only the missing-point error path, which aborts at the
first failed read — before the division is reached — in the model exactly
as the `TypeError` does in the source. -/
def calculateStressLevelP (landmarks : Option PFrame) (rand : ℚ) : Except Unit ℚ :=
  match landmarks with
  | none => Except.ok 0.5
  | some lm => do
    let leftBrowInner ← getP lm LEFT_EYEBROW_INNER
    let rightBrowInner ← getP lm RIGHT_EYEBROW_INNER
    let leftBrowOuter ← getP lm LEFT_EYEBROW_OUTER
    let rightBrowOuter ← getP lm RIGHT_EYEBROW_OUTER
    let noseBridge ← getP lm NOSE_BRIDGE
    let browPinchFactor :=
      |(leftBrowInner.y - noseBridge.y) + (rightBrowInner.y - noseBridge.y)| / 2
    let browAsymmetry :=
      |(leftBrowOuter.y - leftBrowInner.y) - (rightBrowOuter.y - rightBrowInner.y)|
    let mouthLeft ← getP lm MOUTH_LEFT
    let mouthRight ← getP lm MOUTH_RIGHT
    let upperLip ← getP lm UPPER_LIP
    let lowerLip ← getP lm LOWER_LIP
    let mouthWidth := |mouthLeft.x - mouthRight.x|
    let mouthOpenness := |upperLip.y - lowerLip.y|
    let lipCompression := min 0.05 mouthOpenness / 0.05
    let leftEyeTop ← getP lm LEFT_EYE_TOP
    let leftEyeBottom ← getP lm LEFT_EYE_BOTTOM
    let rightEyeTop ← getP lm RIGHT_EYE_TOP
    let rightEyeBottom ← getP lm RIGHT_EYE_BOTTOM
    let leftEyeOpening := |leftEyeTop.y - leftEyeBottom.y|
    let rightEyeOpening := |rightEyeTop.y - rightEyeBottom.y|
    let eyeOpenness := (leftEyeOpening + rightEyeOpening) / 2
    let eyeWidenFactor := |eyeOpenness - 0.03| * 10
    let eyeAsymmetry := |leftEyeOpening - rightEyeOpening| * 10
    let foreheadTop ← getP lm FOREHEAD_TOP
    let foreheadMid ← getP lm FOREHEAD_MID
    let foreheadVariation := |foreheadTop.y - foreheadMid.y|
    let jawLeft ← getP lm JAW_LEFT
    let jawRight ← getP lm JAW_RIGHT
    let jawCenter ← getP lm JAW_CENTER
    let chin ← getP lm CHIN
    let jawWidth := |jawLeft.x - jawRight.x|
    let jawHeight := |jawCenter.y - chin.y|
    let jawClenchFactor := jawWidth / jawHeight - 2.0
    let noseLeft ← getP lm NOSE_LEFT
    let noseRight ← getP lm NOSE_RIGHT
    let noseWidth := |noseLeft.x - noseRight.x|
    let noseFlaring := max 0 ((noseWidth - 0.15) * 5)
    let mouthFactor := 1 - min 1 (mouthWidth * 3.5)
    let eyebrowFactor := min 1 ((1 - browPinchFactor) * 5 + browAsymmetry * 3)
    let eyeFactor := min 1 (eyeWidenFactor * 0.7 + eyeAsymmetry * 0.3)
    let foreheadFactor := min 1 (foreheadVariation * 15)
    let jawFactor := min 1 (max 0 (jawClenchFactor * 2))
    let lipFactor := 1 - lipCompression
    let stressLevel :=
      mouthFactor * 0.20 + eyebrowFactor * 0.25 + eyeFactor * 0.15 +
      foreheadFactor * 0.15 + jawFactor * 0.15 + lipFactor * 0.05 +
      noseFlaring * 0.05
    let stressLevel := stressLevel * 0.95 + rand * 0.05
    pure (min 1 (max 0 stressLevel))

namespace ExerciseValidatorsP

/-- Validator `jawDropper` with point accesses made explicit.  Note the
source validator has no null/missing-point guard of its own (lines
186–200). -/
def jawDropper (lm : PFrame) : Except Unit Bool := do
  let chin ← getP lm CHIN
  let noseTip ← getP lm NOSE_TIP
  let upperLip ← getP lm UPPER_LIP
  let lowerLip ← getP lm LOWER_LIP
  let jawDrop := |chin.y - noseTip.y|
  let mouthOpening := |upperLip.y - lowerLip.y|
  pure (decide (jawDrop > 0.22) && decide (mouthOpening > 0.05))

end ExerciseValidatorsP

/-! ## Exercise session tracker (src/components/ExerciseTracker.tsx)

Two effects drive the streak
(lines 689–712: success increments `successStreak`, failure resets it to 0;
lines 644–686: when `successStreak` reaches 15, `onExerciseComplete()` is
called and the streak is reset to 0).  `completions` counts the
`onExerciseComplete` calls. -/

structure TrackerState where
  successStreak : Nat
  completions : Nat
deriving DecidableEq

/-- One frame evaluation: the streak-update effect followed by the
completion effect. -/
def trackerStep (s : TrackerState) (isSuccessful : Bool) : TrackerState :=
  let streak := if isSuccessful then s.successStreak + 1 else 0
  if 15 ≤ streak then ⟨0, s.completions + 1⟩ else ⟨streak, s.completions⟩

/-- A run of the tracker over a sequence of per-frame evaluation results. -/
def runTracker (s : TrackerState) (results : List Bool) : TrackerState :=
  results.foldl trackerStep s

/-! ## Stress/game session engine (src/components/StressGame.tsx) -/

/-- Constant `GAME_COOLDOWN_MS` (line 356): 1 minute cooldown between
games. -/
def GAME_COOLDOWN_MS : Int := 60000

/-- The launch condition of the trigger effect (lines 359–381): current
stress above 0.7, no active game, face visible, cooldown elapsed, at least
5 history samples whose trailing-5 average is above 0.7, and the random
gate passes. -/
def triggerGuard (now lastGameEndTime : Int) (stressLevel : ℚ)
    (activeGame faceVisible : Bool) (stressHistory : List ℚ) (rand : ℚ) : Bool :=
  let cooldownElapsed := decide (now - lastGameEndTime > GAME_COOLDOWN_MS)
  let recentStress := stressHistory.drop (stressHistory.length - 5)
  decide (stressLevel > 0.7) && !activeGame && faceVisible && cooldownElapsed &&
    decide (recentStress.length ≥ 5) &&
    decide (recentStress.sum / (recentStress.length : ℚ) > 0.7) &&
    decide (rand > 0.5)

/-- Engine-relevant occurrences, each stamped with its `Date.now()` time:
an evaluation of the trigger effect (carrying the sampled stress state it
reads), or `closeGame` running. -/
inductive GameEvent where
  | check (now : Int) (stressLevel : ℚ) (faceVisible : Bool)
      (stressHistory : List ℚ) (rand : ℚ)
  | close (now : Int)

/-- Timestamp of an event. -/
def GameEvent.time : GameEvent → Int
  | .check now _ _ _ _ => now
  | .close now => now

/-- The engine state the cooldown logic touches, extended with the launch
and close histories the verification tracks. -/
structure EngineState where
  activeGame : Bool
  lastGameEndTime : Int
  launches : List Int
  closes : List Int

/-- Initial component state: no active game, `lastGameEndTime = 0`
(line 355). -/
def engineInit : EngineState := ⟨false, 0, [], []⟩

/-- Effect of one event: a trigger evaluation launches a game
(`triggerGame`, lines 444–460, sets the active game) when the guard holds;
`closeGame` (lines 487–501) clears the active game and records
`lastGameEndTime = now`. -/
def engineStep (s : EngineState) (e : GameEvent) : EngineState :=
  match e with
  | .check now stress fv hist rand =>
    if triggerGuard now s.lastGameEndTime stress s.activeGame fv hist rand then
      { s with activeGame := true, launches := s.launches ++ [now] }
    else s
  | .close now =>
    { s with activeGame := false, lastGameEndTime := now,
             closes := s.closes ++ [now] }

/-- Run the engine over an event sequence. -/
def runEngine (es : List GameEvent) : EngineState := es.foldl engineStep engineInit

/-- Timestamps are nondecreasing. -/
def timesSorted : List Int → Bool
  | [] => true
  | [_] => true
  | a :: b :: r => decide (a ≤ b) && timesSorted (b :: r)

/-- A valid execution: event times nondecreasing and nonnegative
(`Date.now()` never precedes the mount that initialises
`lastGameEndTime = 0`). -/
def validEvents (es : List GameEvent) : Bool := timesSorted (0 :: es.map GameEvent.time)

/-- Consecutive entries are more than one cooldown apart. -/
def gapChain : List Int → Bool
  | [] => true
  | [_] => true
  | a :: b :: r => decide (a + GAME_COOLDOWN_MS < b) && gapChain (b :: r)

/-! ## Per-game scratch store (sessionStorage keys, src/components/StressGame.tsx)

The six ad hoc `sessionStorage` keys used by the stateful game validators.
`none` models an absent key; present values (stored strings: serialized
positions and counts) are abstracted by a numeric tag, since only presence
or absence matters to the clearing behaviour. -/

structure ScratchStore where
  prevBrowPos : Option Nat
  prevJawPos : Option Nat
  jawJiggleCount : Option Nat
  prevNostrilPos : Option Nat
  nostrilFlareCount : Option Nat
  prevFacePos : Option Nat
deriving DecidableEq

/-- Effect of `triggerGame` (lines 444–460) on the scratch store: all six
keys are removed. -/
def triggerGameScratch (_s : ScratchStore) : ScratchStore :=
  ⟨none, none, none, none, none, none⟩

/-- Effect of `closeGame` (lines 487–501) on the scratch store: `closeGame`
performs no `sessionStorage` operation, so the store is unchanged. -/
def closeGameScratch (s : ScratchStore) : ScratchStore := s

/-! ## Game resolution (completeGame / closeGame, src/components/StressGame.tsx) -/

/-- The component state touched by game resolution. -/
structure GameModalState where
  stressLevel : ℚ
  lastGameEndTime : Int
  activeGame : Bool
  gameStartTime : Option Int
  gameProgress : ℚ
  gameSuccess : Option Bool
  showModal : Bool
  requirementsMet : Bool

/-- Function `completeGame` (lines 463–484): records the success flag and
forces progress to 100 (timer clearing has no counterpart on this state). -/
def completeGame (success : Bool) (s : GameModalState) : GameModalState :=
  { s with gameSuccess := some success, gameProgress := 100 }

/-- Function `closeGame` (lines 487–501): hides the modal, records
`lastGameEndTime = now`, then resets the per-game fields. -/
def closeGame (now : Int) (s : GameModalState) : GameModalState :=
  { s with showModal := false, lastGameEndTime := now, activeGame := false,
           gameStartTime := none, gameProgress := 0, gameSuccess := none,
           requirementsMet := false }

/-- Full resolution of a game: `completeGame` followed (after the 3s result
dwell) by `closeGame`. -/
def resolveGame (success : Bool) (now : Int) (s : GameModalState) : GameModalState :=
  closeGame now (completeGame success s)

/-! ## The Face Freeze game validator (src/components/StressGame.tsx lines 249–282) -/

/-- The scratch record stored under `prevFacePos`. -/
structure FacePos where
  noseX : ℚ
  noseY : ℚ
  chinX : ℚ
  chinY : ℚ
  leftEyeX : ℚ
  leftEyeY : ℚ
  rightEyeX : ℚ
  rightEyeY : ℚ
deriving DecidableEq

/-- The `face-freeze` validator.  The JS reads/writes
`sessionStorage.prevFacePos`; here the scratch value is the explicit `prev`
argument and the updated value is returned alongside the boolean.  The JS
guard `prev && prev.noseX` is the truthiness test on the stored record and
its `noseX` field.  The source compares `Math.sqrt(d)` with `0.005`; both
sides being nonnegative this is equivalent to comparing `d` with
`0.005 ^ 2`, which is how the stillness checks are stated here (ℚ has no
square root). -/
def faceFreezeValidate (lm : Frame) (gameStartTime : Option Int)
    (prev : Option FacePos) : Bool × Option FacePos :=
  match gameStartTime with
  | some _ =>
    let nose := lm 4
    let chin := lm 152
    let leftEye := lm 159
    let rightEye := lm 386
    let current : FacePos :=
      ⟨nose.x, nose.y, chin.x, chin.y, leftEye.x, leftEye.y, rightEye.x, rightEye.y⟩
    match prev with
    | some p =>
      if p.noseX ≠ 0 then
        let noseDiffSq := (current.noseX - p.noseX) ^ 2 + (current.noseY - p.noseY) ^ 2
        let chinDiffSq := (current.chinX - p.chinX) ^ 2 + (current.chinY - p.chinY) ^ 2
        let leftEyeDiffSq :=
          (current.leftEyeX - p.leftEyeX) ^ 2 + (current.leftEyeY - p.leftEyeY) ^ 2
        let rightEyeDiffSq :=
          (current.rightEyeX - p.rightEyeX) ^ 2 + (current.rightEyeY - p.rightEyeY) ^ 2
        let allStill :=
          decide (noseDiffSq < 0.005 ^ 2) && decide (chinDiffSq < 0.005 ^ 2) &&
          decide (leftEyeDiffSq < 0.005 ^ 2) && decide (rightEyeDiffSq < 0.005 ^ 2)
        (allStill, some current)
      else (true, some current)
    | none => (true, some current)
  | none => (true, prev)

/-! ## Day-over-day streak (src/components/SocialStreaks.tsx lines 77–148) -/

/-- The record stored under `my_streak`.  Days are day numbers; the empty
`lastExerciseDate` string (parsed by JS as the epoch) is `none`, read back
as day 0. -/
structure StreakData where
  streak : Nat
  lastExerciseDate : Option Nat
deriving DecidableEq

/-- Function `updateMyStreak`.  `today - 1` is "yesterday"; the
no-exercise break test `lastDate < twoDaysAgo` compares the stored
midnight against a time strictly inside a day two days back, hence holds
exactly when the stored day is at least two days old
(`lastDate + 2 ≤ today`). -/
def updateMyStreak (today : Nat) (exerciseDoneToday : Bool) (s : StreakData) :
    StreakData :=
  let lastDate := s.lastExerciseDate.getD 0
  if exerciseDoneToday then
    if lastDate = today then
      s
    else if lastDate = today - 1 ∨ s.streak = 0 then
      ⟨s.streak + 1, some today⟩
    else
      ⟨1, some today⟩
  else
    if lastDate + 2 ≤ today ∧ s.streak > 0 then ⟨0, none⟩ else s

/-! ## Resilience score (src/components/ResilienceTracker.tsx lines 35–38) -/

/-- The daily resilience score:
`Math.max(0, Math.min(100, (exerciseCount * 10) - (stress * 50)))`. -/
def resilienceScore (exerciseCount stress : ℚ) : ℚ :=
  max 0 (min 100 (exerciseCount * 10 - stress * 50))

/-- The specification's formula, written in its own words:
`clamp(0, 100, exerciseCount*10 - stress*K)`. -/
def clampSpec (lo hi x : ℚ) : ℚ := min hi (max lo x)

/-! ## Concrete boundary frames for the ten exercise validators

For each validator, `fr…Hi` places the primary measured quantity strictly
on the success side of its threshold (secondary conditions satisfied), and
`fr…Eq` places it exactly at the threshold (secondary conditions still
satisfied). -/

def frJawHi : Frame := mkFrame
  [(152, ⟨0, 0.73, 0⟩), (4, ⟨0, 0.5, 0⟩), (13, ⟨0, 0.40, 0⟩), (14, ⟨0, 0.46, 0⟩)]

def frJawEq : Frame := mkFrame
  [(152, ⟨0, 0.72, 0⟩), (4, ⟨0, 0.5, 0⟩), (13, ⟨0, 0.40, 0⟩), (14, ⟨0, 0.46, 0⟩)]

def frBrowHi : Frame := mkFrame
  [(70, ⟨0, 0.34, 0⟩), (105, ⟨0, 0.34, 0⟩), (300, ⟨0, 0.34, 0⟩),
   (334, ⟨0, 0.34, 0⟩), (4, ⟨0, 0.5, 0⟩)]

def frBrowEq : Frame := mkFrame
  [(70, ⟨0, 0.35, 0⟩), (105, ⟨0, 0.35, 0⟩), (300, ⟨0, 0.35, 0⟩),
   (334, ⟨0, 0.35, 0⟩), (4, ⟨0, 0.5, 0⟩)]

def frCheekHi : Frame := mkFrame
  [(234, ⟨0.2, 0, -0.02⟩), (454, ⟨0.46, 0, -0.02⟩),
   (206, ⟨0.18, 0, 0⟩), (426, ⟨0.48, 0, 0⟩)]

def frCheekEq : Frame := mkFrame
  [(234, ⟨0.2, 0, -0.02⟩), (454, ⟨0.45, 0, -0.02⟩),
   (206, ⟨0.18, 0, 0⟩), (426, ⟨0.48, 0, 0⟩)]

def frWinkHi : Frame := mkFrame
  [(159, ⟨0, 0.3, 0⟩), (145, ⟨0, 0.305, 0⟩), (386, ⟨0, 0.3, 0⟩), (374, ⟨0, 0.33, 0⟩)]

def frWinkEq : Frame := mkFrame
  [(159, ⟨0, 0.3, 0⟩), (145, ⟨0, 0.305, 0⟩), (386, ⟨0, 0.3, 0⟩), (374, ⟨0, 0.325, 0⟩)]

def frSmileHi : Frame := mkFrame
  [(61, ⟨0.1, 0.5, 0⟩), (291, ⟨0.41, 0.5, 0⟩), (13, ⟨0, 0.52, 0⟩), (14, ⟨0, 0.52, 0⟩)]

def frSmileEq : Frame := mkFrame
  [(61, ⟨0.1, 0.5, 0⟩), (291, ⟨0.40, 0.5, 0⟩), (13, ⟨0, 0.52, 0⟩), (14, ⟨0, 0.52, 0⟩)]

def frNoseHi : Frame := mkFrame
  [(4, ⟨0, 0.5, 0⟩), (6, ⟨0, 0.48, 0⟩), (105, ⟨0.46, 0, 0⟩), (334, ⟨0.53, 0, 0⟩)]

def frNoseEq : Frame := mkFrame
  [(4, ⟨0, 0.5, 0⟩), (6, ⟨0, 0.475, 0⟩), (105, ⟨0.46, 0, 0⟩), (334, ⟨0.53, 0, 0⟩)]

def frLipHi : Frame := mkFrame
  [(61, ⟨0.3, 0, 0⟩), (291, ⟨0.44, 0, 0⟩), (13, ⟨0, 0, -0.02⟩), (14, ⟨0, 0, -0.02⟩),
   (0, ⟨0, 0.48, 0⟩), (17, ⟨0, 0.53, 0⟩)]

def frLipEq : Frame := mkFrame
  [(61, ⟨0.3, 0, 0⟩), (291, ⟨0.45, 0, 0⟩), (13, ⟨0, 0, -0.02⟩), (14, ⟨0, 0, -0.02⟩),
   (0, ⟨0, 0.48, 0⟩), (17, ⟨0, 0.53, 0⟩)]

def frChinHi : Frame := mkFrame
  [(152, ⟨0, 0, -0.016⟩), (4, ⟨0, 0, 0⟩), (149, ⟨0.4, 0, 0⟩), (378, ⟨0.59, 0, 0⟩)]

def frChinEq : Frame := mkFrame
  [(152, ⟨0, 0, -0.015⟩), (4, ⟨0, 0, 0⟩), (149, ⟨0.4, 0, 0⟩), (378, ⟨0.59, 0, 0⟩)]

def frForeHi : Frame := mkFrame
  [(10, ⟨0, 0.2, 0⟩), (151, ⟨0, 0.204, 0⟩), (107, ⟨0, 0.3, 0⟩), (336, ⟨0, 0.3, 0⟩)]

def frForeEq : Frame := mkFrame
  [(10, ⟨0, 0.2, 0⟩), (151, ⟨0, 0.205, 0⟩), (107, ⟨0, 0.3, 0⟩), (336, ⟨0, 0.3, 0⟩)]

def frTongueHi : Frame := mkFrame
  [(13, ⟨0, 0.40, 0⟩), (14, ⟨0, 0.51, 0⟩), (0, ⟨0, 0.38, 0⟩), (17, ⟨0, 0.54, 0⟩),
   (152, ⟨0, 0.58, 0⟩)]

def frTongueEq : Frame := mkFrame
  [(13, ⟨0, 0.41, 0⟩), (14, ⟨0, 0.51, 0⟩), (0, ⟨0, 0.38, 0⟩), (17, ⟨0, 0.54, 0⟩),
   (152, ⟨0, 0.58, 0⟩)]

/-- A frame populated everywhere except the left inner eyebrow (index 105),
the first point the stress estimator reads. -/
def frMissingBrow : PFrame := fun i => if i = 105 then none else some ⟨0, 0, 0⟩

/-- A frame populated everywhere except the chin (index 152), the first
point `jawDropper` reads. -/
def frMissingChin : PFrame := fun i => if i = 152 then none else some ⟨0, 0, 0⟩

/-- A fully populated frame with all points at the origin: jaw width and
jaw height both measure 0, so the source's `jawWidth / jawHeight` is the
JavaScript `0/0 = NaN`. -/
def frDegenerate : Frame := fun _ => ⟨0, 0, 0⟩

/-- A fully populated frame whose chin is displaced from the jaw centre,
so the jaw-height denominator is nonzero. -/
def frNonDeg : Frame := fun i => if i = 152 then ⟨0, 0.73, 0⟩ else ⟨0, 0, 0⟩

/-! ## Concrete example states and traces -/

/-- A concrete engine trace: a qualifying trigger evaluation, the game's
close, a trigger evaluation inside the cooldown window, and one after it. -/
def demoEvents : List GameEvent :=
  [GameEvent.check 100000 0.8 true [0.8, 0.8, 0.8, 0.8, 0.8] 0.6,
   GameEvent.close 140000,
   GameEvent.check 170000 0.8 true [0.8, 0.8, 0.8, 0.8, 0.8] 0.6,
   GameEvent.check 201000 0.8 true [0.8, 0.8, 0.8, 0.8, 0.8] 0.6]

/-- A concrete mid-game component state with stress estimate 0.8. -/
def exGameState : GameModalState :=
  { stressLevel := 0.8, lastGameEndTime := 0, activeGame := true,
    gameStartTime := some 1000, gameProgress := 50, gameSuccess := none,
    showModal := true, requirementsMet := true }

/-- A concrete scratch store populated mid-game (counts abstract the stored
numeric strings). -/
def exScratch : ScratchStore :=
  { prevBrowPos := some 1, prevJawPos := some 2, jawJiggleCount := some 7,
    prevNostrilPos := some 3, nostrilFlareCount := some 5, prevFacePos := some 4 }

/-! ## Engine invariant for the cooldown property -/

/-- Invariant of the engine state at lower time bound `t`: all recorded
times are at or before `t`, closes never postdate the cooldown anchor,
launches of finished games never postdate the anchor, launches are more
than one cooldown apart, and every launch is more than one cooldown after
every earlier close. -/
def EngineInv (t : Int) (s : EngineState) : Prop :=
  s.lastGameEndTime ≤ t ∧
  (∀ c ∈ s.closes, c ≤ s.lastGameEndTime) ∧
  (∀ l ∈ s.launches, l ≤ t) ∧
  (s.activeGame = false → ∀ l ∈ s.launches, l ≤ s.lastGameEndTime) ∧
  gapChain s.launches = true ∧
  (∀ l ∈ s.launches, ∀ c ∈ s.closes, c < l → c + GAME_COOLDOWN_MS < l)

theorem gapChain_append : ∀ (xs : List Int) (y : Int), gapChain xs = true →
    (∀ x ∈ xs, x + GAME_COOLDOWN_MS < y) → gapChain (xs ++ [y]) = true
  | [], y, _, _ => rfl
  | [a], y, _, h => by
    simp only [List.cons_append, List.nil_append, gapChain, Bool.and_eq_true,
      decide_eq_true_eq]
    exact ⟨h a (List.mem_singleton_self a), trivial⟩
  | a :: b :: r, y, hc, h => by
    simp only [gapChain, Bool.and_eq_true] at hc
    simp only [List.cons_append, gapChain, Bool.and_eq_true]
    exact ⟨hc.1, gapChain_append (b :: r) y hc.2
      (fun x hx => h x (List.mem_cons_of_mem a hx))⟩

theorem engineInv_step (t : Int) (s : EngineState) (e : GameEvent)
    (hInv : EngineInv t s) (ht : t ≤ e.time) : EngineInv e.time (engineStep s e) := by
  obtain ⟨hEnd, hCloses, hLaunches, hFin, hGap, hSep⟩ := hInv
  cases e with
  | close now =>
    simp only [GameEvent.time] at ht ⊢
    simp only [engineStep]
    refine ⟨le_refl now, ?_, ?_, ?_, hGap, ?_⟩
    · intro c hc
      rcases List.mem_append.mp hc with hc | hc
      · exact le_trans (hCloses c hc) (le_trans hEnd ht)
      · simp only [List.mem_singleton] at hc
        exact le_of_eq hc
    · intro l hl
      exact le_trans (hLaunches l hl) ht
    · intro _ l hl
      exact le_trans (hLaunches l hl) ht
    · intro l hl c hc hcl
      rcases List.mem_append.mp hc with hc | hc
      · exact hSep l hl c hc hcl
      · simp only [List.mem_singleton] at hc
        subst hc
        exact absurd hcl (not_lt.mpr (le_trans (hLaunches l hl) ht))
  | check now stress fv hist rand =>
    simp only [GameEvent.time] at ht ⊢
    simp only [engineStep]
    by_cases hg : triggerGuard now s.lastGameEndTime stress s.activeGame fv hist rand = true
    · rw [if_pos hg]
      have hga := hg
      simp only [triggerGuard, Bool.and_eq_true, Bool.not_eq_true',
        decide_eq_true_eq] at hga
      have hInactive : s.activeGame = false := hga.1.1.1.1.1.2
      have hCool : now - s.lastGameEndTime > GAME_COOLDOWN_MS := hga.1.1.1.2
      refine ⟨le_trans hEnd ht, hCloses, ?_, ?_, ?_, ?_⟩
      · intro l hl
        rcases List.mem_append.mp hl with hl | hl
        · exact le_trans (hLaunches l hl) ht
        · simp only [List.mem_singleton] at hl
          omega
      · intro hfalse
        simp at hfalse
      · exact gapChain_append s.launches now hGap
          (fun x hx => by have := hFin hInactive x hx; omega)
      · intro l hl c hc hcl
        rcases List.mem_append.mp hl with hl | hl
        · exact hSep l hl c hc hcl
        · simp only [List.mem_singleton] at hl
          subst hl
          have := hCloses c hc
          omega
    · rw [if_neg hg]
      exact ⟨le_trans hEnd ht, hCloses, fun l hl => le_trans (hLaunches l hl) ht,
        hFin, hGap, hSep⟩

theorem engineInv_run : ∀ (es : List GameEvent) (t : Int) (s : EngineState),
    EngineInv t s → timesSorted (t :: es.map GameEvent.time) = true →
    ∃ t₁, EngineInv t₁ (es.foldl engineStep s)
  | [], t, s, hInv, _ => ⟨t, hInv⟩
  | e :: rest, t, s, hInv, hSorted => by
    simp only [List.map_cons, timesSorted, Bool.and_eq_true, decide_eq_true_eq]
      at hSorted
    exact engineInv_run rest e.time (engineStep s e)
      (engineInv_step t s e hInv hSorted.1) hSorted.2

/-- C3 counterexample: on the fully populated frame with every point at
the origin, jaw width and jaw height both measure 0, the source computes
`0/0 = NaN` at `jawClenchFactor`, and the NaN reaches the returned value —
so the stress estimator does not return a value in `[0,1]` for every fully
populated frame. -/
theorem calculateStressLevel_NaN_cex :
    calculateStressLevel (some frDegenerate) 0 = none ∧
    |(frDegenerate JAW_LEFT).x - (frDegenerate JAW_RIGHT).x| = 0 ∧
    |(frDegenerate JAW_CENTER).y - (frDegenerate CHIN).y| = 0 := by
  refine ⟨?_, by norm_num [frDegenerate], by norm_num [frDegenerate]⟩
  simp [calculateStressLevel, frDegenerate]

/-- C3 amended: for every fully populated frame whose jaw measurements are
not both zero (the sole case in which the source's `jawWidth / jawHeight`
is the JavaScript `0/0 = NaN`, which then propagates to the returned
value), the stress estimator returns a value in `[0,1]` for any jitter
draw; for a null frame it returns exactly `0.5`. -/
theorem calculateStressLevel_bounds_nondeg (f : Frame) (r : ℚ)
    (h : ¬(|(f JAW_LEFT).x - (f JAW_RIGHT).x| = 0 ∧
           |(f JAW_CENTER).y - (f CHIN).y| = 0)) :
    (∃ q, calculateStressLevel (some f) r = some q ∧ 0 ≤ q ∧ q ≤ 1) ∧
    calculateStressLevel none r = some 0.5 := by
  constructor
  · simp only [calculateStressLevel]
    rw [if_neg h]
    exact ⟨_, rfl, le_min (by norm_num) (le_max_left 0 _), min_le_left 1 _⟩
  · rfl

/-- Witness for C3 amended at the concrete nondegenerate frame
`frNonDeg`. -/
theorem calculateStressLevel_bounds_nondeg_witness :
    ¬(|(frNonDeg JAW_LEFT).x - (frNonDeg JAW_RIGHT).x| = 0 ∧
      |(frNonDeg JAW_CENTER).y - (frNonDeg CHIN).y| = 0) ∧
    ((∃ q, calculateStressLevel (some frNonDeg) 0 = some q ∧ 0 ≤ q ∧ q ≤ 1) ∧
     calculateStressLevel none 0 = some 0.5) :=
  ⟨by norm_num [frNonDeg, JAW_LEFT, JAW_RIGHT, JAW_CENTER, CHIN],
   calculateStressLevel_bounds_nondeg frNonDeg 0
     (by norm_num [frNonDeg, JAW_LEFT, JAW_RIGHT, JAW_CENTER, CHIN])⟩

/-- C1: starting from streak 0, 15 consecutive successful frame evaluations
produce exactly one `onExerciseComplete` call and leave the streak at 0;
after 14 successes no completion has fired, and a single failed evaluation
at any streak value resets the streak to 0 with no completion event. -/
theorem exerciseStreak_completion :
    (∀ c, runTracker ⟨0, c⟩ (List.replicate 15 true) = ⟨0, c + 1⟩) ∧
    (∀ c, runTracker ⟨0, c⟩ (List.replicate 14 true) = ⟨14, c⟩) ∧
    (∀ n c, trackerStep ⟨n, c⟩ false = ⟨0, c⟩) :=
  ⟨fun _ => by simp [runTracker, trackerStep, List.replicate, List.foldl],
   fun _ => by simp [runTracker, trackerStep, List.replicate, List.foldl],
   fun _ _ => rfl⟩

/-- C2: in every valid engine execution, consecutive game launches are more
than one cooldown (60 s) apart — at most one launch per cooldown period —
and every launch happens more than one cooldown after every earlier game
end. -/
theorem gameCooldown_single_launch (es : List GameEvent)
    (h : validEvents es = true) :
    gapChain (runEngine es).launches = true ∧
    ∀ l ∈ (runEngine es).launches, ∀ c ∈ (runEngine es).closes,
      c < l → c + GAME_COOLDOWN_MS < l := by
  obtain ⟨t₁, hInv⟩ := engineInv_run es 0 engineInit
    ⟨le_refl 0, by simp [engineInit], by simp [engineInit],
     fun _ => by simp [engineInit], rfl, by simp [engineInit]⟩ h
  exact ⟨hInv.2.2.2.2.1, hInv.2.2.2.2.2⟩

/-- Witness for C2 at the concrete trace `demoEvents`. -/
theorem gameCooldown_single_launch_witness :
    validEvents demoEvents = true ∧
    (gapChain (runEngine demoEvents).launches = true ∧
     ∀ l ∈ (runEngine demoEvents).launches, ∀ c ∈ (runEngine demoEvents).closes,
       c < l → c + GAME_COOLDOWN_MS < l) :=
  ⟨by decide, gameCooldown_single_launch demoEvents (by decide)⟩

/-- C4 counterexample: at a concrete mid-game state with stress estimate
0.8, resolving the game with success leaves the stress estimate at 0.8 —
there is no on-success decrement anywhere in `completeGame`/`closeGame`. -/
theorem resolveGame_success_noDecrement_cex :
    (resolveGame true 100000 exGameState).stressLevel = 0.8 ∧
    exGameState.stressLevel = 0.8 :=
  ⟨rfl, rfl⟩

/-- C4 amended: when a game resolves, the stress estimate is unchanged
whether the game succeeded or failed; resolution records only
`lastGameEndTime = now` (and clears the per-game fields). -/
theorem resolveGame_stress_unchanged (success : Bool) (now : Int)
    (s : GameModalState) :
    (resolveGame success now s).stressLevel = s.stressLevel ∧
    (resolveGame success now s).lastGameEndTime = now ∧
    (resolveGame success now s).activeGame = false :=
  ⟨rfl, rfl, rfl⟩

/-- C5 counterexample: a non-null frame missing one point is not treated
like the no-face case: the stress estimator's point access errors instead
of returning the neutral 0.5 that a null frame gets, and `jawDropper`
(which has no guard at all) errors likewise. -/
theorem partialFrame_not_neutral_cex :
    calculateStressLevelP (some frMissingBrow) 0 = Except.error () ∧
    calculateStressLevelP none 0 = Except.ok 0.5 ∧
    ExerciseValidatorsP.jawDropper frMissingChin = Except.error () :=
  ⟨rfl, rfl, rfl⟩

/-- C5 amended: the estimator and validators guard only against an
entirely null frame; on any non-null frame missing a point they read, the
point access fails (the error branch of point access is reachable), rather
than evaluation being skipped with the neutral default. -/
theorem partialFrame_access_error (f g : PFrame) (r : ℚ)
    (hf : f LEFT_EYEBROW_INNER = none) (hg : g CHIN = none) :
    calculateStressLevelP (some f) r = Except.error () ∧
    ExerciseValidatorsP.jawDropper g = Except.error () := by
  constructor
  · have h1 : getP f LEFT_EYEBROW_INNER = Except.error () := by
      simp [getP, hf]
    simp only [calculateStressLevelP, h1, Except.bind]
    rfl
  · have h1 : getP g CHIN = Except.error () := by
      simp [getP, hg]
    simp only [ExerciseValidatorsP.jawDropper, h1, Except.bind]
    rfl

/-- Witness for C5 amended, at frames missing index 105 (left inner
eyebrow) and index 152 (chin) respectively. -/
theorem partialFrame_access_error_witness :
    frMissingBrow LEFT_EYEBROW_INNER = none ∧ frMissingChin CHIN = none ∧
    (calculateStressLevelP (some frMissingBrow) 0 = Except.error () ∧
     ExerciseValidatorsP.jawDropper frMissingChin = Except.error ()) :=
  ⟨rfl, rfl, partialFrame_access_error frMissingBrow frMissingChin 0 rfl rfl⟩

/-- C6 counterexample: `closeGame` leaves the populated scratch store
untouched — the scratch state is not cleared when a game ends. -/
theorem closeGame_scratch_not_cleared_cex :
    closeGameScratch exScratch = exScratch ∧
    closeGameScratch exScratch ≠ triggerGameScratch exScratch :=
  ⟨rfl, by decide⟩

/-- C6 amended: the scratch store is cleared when a game starts
(`triggerGame`) but not when it ends (`closeGame`); since every game
begins with `triggerGame`, all six keys read as absent at the start of the
next game, so no scratch value written during one game is readable during
the next. -/
theorem triggerGame_clears_scratch (s : ScratchStore) :
    (triggerGameScratch s).prevBrowPos = none ∧
    (triggerGameScratch s).prevJawPos = none ∧
    (triggerGameScratch s).jawJiggleCount = none ∧
    (triggerGameScratch s).prevNostrilPos = none ∧
    (triggerGameScratch s).nostrilFlareCount = none ∧
    (triggerGameScratch s).prevFacePos = none ∧
    closeGameScratch s = s :=
  ⟨rfl, rfl, rfl, rfl, rfl, rfl, rfl⟩

/-- C8: the daily resilience score is
`clamp(0, 100, exerciseCount*10 - stress*50)` — the implementation's
constant is K = 50 — and in particular 10 exercises at stress 0 give 100
while 0 exercises at stress 1 give 0. -/
theorem resilience_formula :
    (∀ c s, resilienceScore c s = clampSpec 0 100 (c * 10 - s * 50)) ∧
    resilienceScore 10 0 = 100 ∧ resilienceScore 0 1 = 0 := by
  refine ⟨fun c s => ?_, by norm_num [resilienceScore], by norm_num [resilienceScore]⟩
  simp only [resilienceScore, clampSpec]
  rw [max_min_distrib_left]
  norm_num

/-- C9: the day-over-day streak update: done and already counted today →
unchanged; done with `lastExerciseDate` yesterday → incremented; done with
streak 0 → becomes 1; done after a gap of at least 2 days with positive
streak → reset to 1; and the run day 1 done, day 2 done, day 4 done ends
with streak 1, not 3. -/
theorem updateMyStreak_rules :
    (∀ n d, updateMyStreak d true ⟨n, some d⟩ = ⟨n, some d⟩) ∧
    (∀ n d, updateMyStreak (d + 1) true ⟨n, some d⟩ = ⟨n + 1, some (d + 1)⟩) ∧
    (∀ d, updateMyStreak (d + 1) true ⟨0, none⟩ = ⟨1, some (d + 1)⟩) ∧
    (∀ n d g, updateMyStreak (d + g + 2) true ⟨n + 1, some d⟩ = ⟨1, some (d + g + 2)⟩) ∧
    updateMyStreak 4 true (updateMyStreak 2 true (updateMyStreak 1 true ⟨0, none⟩)) =
      ⟨1, some 4⟩ := by
  refine ⟨fun n d => ?_, fun n d => ?_, fun d => ?_, fun n d g => ?_, by decide⟩
  · simp [updateMyStreak]
  · have h1 : ¬(d = d + 1) := by omega
    have h2 : d + 1 - 1 = d := by omega
    simp [updateMyStreak, h1, h2]
  · have h1 : ¬(0 = d + 1) := by omega
    simp [updateMyStreak, h1]
  · have h1 : ¬(d = d + g + 2) := by omega
    have h2 : d + g + 2 - 1 = d + g + 1 := by omega
    have h3 : ¬(d = d + g + 1) := by omega
    simp [updateMyStreak, h1, h2, h3]

/-- C10: on the first evaluation of the Face Freeze validator within a
game instance (game started, no previous face position in scratch), the
validator returns true — the requirement is reported met before any
stillness has been observed. -/
theorem faceFreeze_firstFrame_true (lm : Frame) (t : Int) :
    (faceFreezeValidate lm (some t) none).1 = true := rfl

/-- C7 counterexample: a frame whose jaw-drop measurement exactly equals
the documented threshold 0.22 (with the secondary mouth-opening condition
satisfied) makes `jawDropper` return false, not true — the comparisons are
strict. -/
theorem validator_at_threshold_cex :
    |(frJawEq CHIN).y - (frJawEq NOSE_TIP).y| = 0.22 ∧
    |(frJawEq UPPER_LIP).y - (frJawEq LOWER_LIP).y| > 0.05 ∧
    ExerciseValidators.jawDropper frJawEq = false := by
  refine ⟨?_, ?_, ?_⟩ <;>
    simp [ExerciseValidators.jawDropper, frJawEq, mkFrame, CHIN, NOSE_TIP,
      UPPER_LIP, LOWER_LIP] <;>
    norm_num [abs_of_nonneg, abs_of_nonpos]

/-- C7 amended: for each of the ten exercise validators, a frame whose
measured quantity is strictly on the success side of the documented
threshold (secondary conditions satisfied) validates true, and a frame
whose measured quantity sits exactly at the threshold validates false (so
just-below-threshold performance is rejected, and so is exact equality:
every comparison is strict). -/
theorem validators_strict_boundary :
    (ExerciseValidators.jawDropper frJawHi = true ∧
     |(frJawEq CHIN).y - (frJawEq NOSE_TIP).y| = 0.22 ∧
     ExerciseValidators.jawDropper frJawEq = false) ∧
    (ExerciseValidators.browLifter frBrowHi = true ∧
     ((((frBrowEq NOSE_TIP).y - (frBrowEq LEFT_EYEBROW_OUTER).y +
        ((frBrowEq NOSE_TIP).y - (frBrowEq LEFT_EYEBROW_INNER).y)) / 2 +
       ((frBrowEq NOSE_TIP).y - (frBrowEq RIGHT_EYEBROW_OUTER).y +
        ((frBrowEq NOSE_TIP).y - (frBrowEq RIGHT_EYEBROW_INNER).y)) / 2) / 2 = 0.15) ∧
     ExerciseValidators.browLifter frBrowEq = false) ∧
    (ExerciseValidators.cheekPuffer frCheekHi = true ∧
     |(frCheekEq LEFT_CHEEK).x - (frCheekEq RIGHT_CHEEK).x| = 0.25 ∧
     ExerciseValidators.cheekPuffer frCheekEq = false) ∧
    (ExerciseValidators.eyeWinker frWinkHi = true ∧
     abs (|(frWinkEq LEFT_EYE_TOP).y - (frWinkEq LEFT_EYE_BOTTOM).y| -
       |(frWinkEq RIGHT_EYE_TOP).y - (frWinkEq RIGHT_EYE_BOTTOM).y|) = 0.02 ∧
     ExerciseValidators.eyeWinker frWinkEq = false) ∧
    (ExerciseValidators.smileyStretch frSmileHi = true ∧
     |(frSmileEq MOUTH_LEFT).x - (frSmileEq MOUTH_RIGHT).x| = 0.3 ∧
     ExerciseValidators.smileyStretch frSmileEq = false) ∧
    (ExerciseValidators.noseScruncher frNoseHi = true ∧
     |(frNoseEq NOSE_TIP).y - (frNoseEq NOSE_BRIDGE).y| = 0.025 ∧
     ExerciseValidators.noseScruncher frNoseEq = false) ∧
    (ExerciseValidators.lipPucker frLipHi = true ∧
     |(frLipEq MOUTH_LEFT).x - (frLipEq MOUTH_RIGHT).x| = 0.15 ∧
     ExerciseValidators.lipPucker frLipEq = false) ∧
    (ExerciseValidators.chinJutter frChinHi = true ∧
     (frChinEq NOSE_TIP).z - (frChinEq CHIN).z = 0.015 ∧
     ExerciseValidators.chinJutter frChinEq = false) ∧
    (ExerciseValidators.foreheadSmoother frForeHi = true ∧
     |(frForeEq FOREHEAD_TOP).y - (frForeEq FOREHEAD_MID).y| = 0.005 ∧
     ExerciseValidators.foreheadSmoother frForeEq = false) ∧
    (ExerciseValidators.tongueTwister frTongueHi = true ∧
     |(frTongueEq UPPER_LIP).y - (frTongueEq LOWER_LIP).y| = 0.1 ∧
     ExerciseValidators.tongueTwister frTongueEq = false) := by
  refine ⟨⟨?_, ?_, ?_⟩, ⟨?_, ?_, ?_⟩, ⟨?_, ?_, ?_⟩, ⟨?_, ?_, ?_⟩, ⟨?_, ?_, ?_⟩,
    ⟨?_, ?_, ?_⟩, ⟨?_, ?_, ?_⟩, ⟨?_, ?_, ?_⟩, ⟨?_, ?_, ?_⟩, ⟨?_, ?_, ?_⟩⟩ <;>
    simp [ExerciseValidators.jawDropper, ExerciseValidators.browLifter,
      ExerciseValidators.cheekPuffer, ExerciseValidators.eyeWinker,
      ExerciseValidators.smileyStretch, ExerciseValidators.noseScruncher,
      ExerciseValidators.lipPucker, ExerciseValidators.chinJutter,
      ExerciseValidators.foreheadSmoother, ExerciseValidators.tongueTwister,
      frJawHi, frJawEq, frBrowHi, frBrowEq, frCheekHi, frCheekEq, frWinkHi,
      frWinkEq, frSmileHi, frSmileEq, frNoseHi, frNoseEq, frLipHi, frLipEq,
      frChinHi, frChinEq, frForeHi, frForeEq, frTongueHi, frTongueEq, mkFrame,
      CHIN, NOSE_TIP, UPPER_LIP, LOWER_LIP, LEFT_EYEBROW_OUTER,
      LEFT_EYEBROW_INNER, RIGHT_EYEBROW_OUTER, RIGHT_EYEBROW_INNER, LEFT_CHEEK,
      RIGHT_CHEEK, LEFT_CHEEK_OUTER, RIGHT_CHEEK_OUTER, LEFT_EYE_TOP,
      LEFT_EYE_BOTTOM, RIGHT_EYE_TOP, RIGHT_EYE_BOTTOM, MOUTH_LEFT, MOUTH_RIGHT,
      NOSE_BRIDGE, UPPER_LIP_TOP, LOWER_LIP_BOTTOM, CHIN_LEFT, CHIN_RIGHT,
      FOREHEAD_TOP, FOREHEAD_MID, LEFT_EYEBROW, RIGHT_EYEBROW] <;>
    norm_num [abs_of_nonneg, abs_of_nonpos]
